import Mathlib

/-!
Verification development for the `domonap` intercom integration.

The embedding translates the Python sources under `custom_components/domonap`
(`util.py`, `actions.py`, `button.py`, `sensor.py`) into executable Lean
definitions.  Python dictionaries become association lists that preserve
insertion order, Python values become the inductive `Value`, fallible vendor
calls become `Except String Value` (an `error` models a raised exception),
and Python truthiness is modelled explicitly where the source relies on it.
-/

/-- A simple (scalar) Python value as it appears in event payloads,
sensor attributes and vendor responses: a string, an integer, a boolean
or `None`. -/
inductive Scalar where
  | s (v : String)
  | i (n : Int)
  | b (v : Bool)
  | none
deriving DecidableEq

/-- A Python value: either a scalar or a (flat) dictionary of scalars,
which is what vendor responses and captured end-call results are. -/
inductive Value where
  | scalar (v : Scalar)
  | dict (d : List (String × Scalar))
deriving DecidableEq

/-- Shorthand for the Python `None` value. -/
def vNone : Value := Value.scalar Scalar.none

/-- Shorthand for a Python string value. -/
def vStr (s : String) : Value := Value.scalar (Scalar.s s)

/-- Shorthand for a Python integer value. -/
def vInt (n : Int) : Value := Value.scalar (Scalar.i n)

/-- Shorthand for a Python boolean value. -/
def vBool (b : Bool) : Value := Value.scalar (Scalar.b b)

/-- Python truthiness of a scalar: empty string, zero, `False` and `None`
are falsy. -/
def Scalar.truthy : Scalar → Bool
  | .s v => v != ""
  | .i n => n != 0
  | .b v => v
  | .none => false

/-- Python truthiness of a value: a dictionary is truthy iff non-empty. -/
def Value.truthy : Value → Bool
  | .scalar v => v.truthy
  | .dict d => !d.isEmpty

/-- Python `str()` of a scalar. -/
def Scalar.pyStr : Scalar → String
  | .s v => v
  | .i n => toString n
  | .b true => "True"
  | .b false => "False"
  | .none => "None"

/-- Python `repr()` of a scalar (strings get quoted). -/
def Scalar.pyRepr : Scalar → String
  | .s v => "\x27" ++ v ++ "\x27"
  | .i n => toString n
  | .b true => "True"
  | .b false => "False"
  | .none => "None"

/-- Python `str()` of a value; dictionaries print as `\x7b'k': v, ...\x7d`. -/
def Value.pyStr : Value → String
  | .scalar v => v.pyStr
  | .dict d =>
      "\x7b" ++ String.intercalate ", "
        (d.map (fun kv => "\x27" ++ kv.1 ++ "\x27: " ++ kv.2.pyRepr)) ++ "\x7d"

/-- Lookup in an insertion-ordered association list, modelling
`dict.get(key)` (first matching key wins; Python dicts have unique keys). -/
def alistGet {α : Type} (l : List (String × α)) (k : String) : Option α :=
  (l.find? (fun kv => kv.1 == k)).map (·.2)

/-- Modelling `d[key] = v` on a Python dict: replace the value of an
existing key in place, otherwise append the pair at the end. -/
def alistSet {α : Type} (l : List (String × α)) (k : String) (v : α) :
    List (String × α) :=
  match l with
  | [] => [(k, v)]
  | (k2, v2) :: rest =>
      if k2 == k then (k2, v) :: rest else (k2, v2) :: alistSet rest k v

/-- Lookup modelling `attrs.get(key)` where a missing key yields Python
`None`. -/
def alistGetV (l : List (String × Value)) (k : String) : Value :=
  (alistGet l k).getD vNone

/-- Python `x or y` on values: the first operand if truthy, else the second. -/
def pyOr (x y : Value) : Value := if x.truthy then x else y

/-- Python `s.strip()`: remove leading and trailing whitespace.  Defined
by structural recursion over the character list so that it evaluates by
kernel reduction. -/
def pyStrip (s : String) : String :=
  String.mk (((s.data.dropWhile Char.isWhitespace).reverse.dropWhile
    Char.isWhitespace).reverse)

/-- Keep only the decimal-digit characters of a string, in order
(`re.sub(r"\D", "", s)` from `util.py`). -/
def stripNonDigits (s : String) : String := String.mk (s.data.filter Char.isDigit)

/-- Python `digits or None` from `util.py`: a non-empty digit string, else
absent. -/
def digitsOrNone (s : String) : Option String :=
  let d := stripNonDigits s
  if d = "" then none else some d

/-- Configuration entry as used by `util.extract_phone_digits`:
`entry.data` (a dict) and `entry.title` (a string). -/
structure ConfigEntry where
  data : List (String × Value)
  title : String
deriving DecidableEq

/-- Embedding of `util.extract_phone_digits`.  Prefers
`entry.data["phone_number"]` when it is a string that is non-empty after
trimming; in that case it returns its digits, or `None` when that string
holds no digit (`return digits or None` — no fall-through).  Otherwise it
returns the digits of `entry.title`, or `None`. -/
def extract_phone_digits (entry : ConfigEntry) : Option String :=
  match alistGet entry.data "phone_number" with
  | some (Value.scalar (Scalar.s phone)) =>
      if pyStrip phone ≠ "" then digitsOrNone phone
      else digitsOrNone entry.title
  | _ => digitsOrNone entry.title

/-- Resolver following the specification text for comparison with the
source (the spec claims a fall-through from a digit-less `phone_number`
to the title): "if `phone_number` is a non-empty string after trimming,
strip every non-digit character; if the result is non-empty return it,
else fall through.  Otherwise strip every non-digit character from the
title; return the result if non-empty, else return absent." -/
def spec_extract_phone_digits (entry : ConfigEntry) : Option String :=
  match alistGet entry.data "phone_number" with
  | some (Value.scalar (Scalar.s phone)) =>
      if pyStrip phone ≠ "" then
        match digitsOrNone phone with
        | some d => some d
        | none => digitsOrNone entry.title
      else digitsOrNone entry.title
  | _ => digitsOrNone entry.title

/-- The integration domain constant from `const.py` (opaque identifier used
as a dictionary key and in the legacy sensor entity name). -/
def DOMAIN : String := "domonap"

/-- The vendor RPC client (black-box collaborator).  Each method either
returns a `Value` or raises an exception, modelled as `Except.error` with
an opaque exception tag. -/
structure ApiClient where
  openRelayByDoorId : String → Except String Value
  openRelayByKeyId : String → Except String Value
  endCallNotify : String → Except String Value

/-- Per-entry integration data: `hass.data[DOMAIN][entry_id]`, a dict whose
`API` key (`.get(API)`) holds the client when available. -/
structure EntryData where
  api : Option ApiClient

/-- A platform state object: entity id, current state string, and the
attribute dictionary. -/
structure HAState where
  entity_id : String
  state : String
  attributes : List (String × Value)

/-- The slice of the HomeAssistant host object that the handlers read:
`hass.data[DOMAIN]` (per-entry data in registration order),
`hass.config_entries` (lookup by entry id), and `hass.states`
(registered state objects in registration order). -/
structure Hass where
  domainData : List (String × EntryData)
  configEntries : List (String × ConfigEntry)
  states : List HAState

/-- Modelling `hass.states.get(entity_id)`. -/
def statesGet (states : List HAState) (eid : String) : Option HAState :=
  states.find? (fun st => st.entity_id == eid)

/-- Embedding of `actions._select_entry_id`: `None` on an empty registry;
a truthy requested id is returned only when present in the registry
(`requested in domain_data`); otherwise the first registered entry id
(`next(iter(domain_data.keys()), None)`).  A falsy requested id (Python
`None` or the empty string) falls through to the first entry. -/
def _select_entry_id (domainData : List (String × EntryData))
    (requested : Option String) : Option String :=
  if domainData.isEmpty then none
  else
    match requested with
    | some r =>
        if r ≠ "" then
          if (alistGet domainData r).isSome then some r else none
        else domainData.head?.map (·.1)
    | none => domainData.head?.map (·.1)

/-- Python truthiness of an `Optional[str]`. -/
def optTruthy : Option String → Bool
  | some s => s != ""
  | none => false

/-- Embedding of `actions._find_last_call_sensor_entity_id`: prefer
`sensor.<phone_digits>_last_call_door_id` when the entry resolves and that
entity exists; then the legacy `sensor.<DOMAIN>_<entry_id>_last_call_door_id`;
finally scan all sensor states for the first entity id with the
`_last_call_door_id` suffix.  (`async_get_entry` raising is caught and
treated as a missing entry.) -/
def _find_last_call_sensor_entity_id (hass : Hass) (entry_id : Option String) :
    Option String :=
  let fromEntry : Option String :=
    match entry_id with
    | some eid =>
        if eid = "" then none
        else
          let byPhone : Option String :=
            match alistGet hass.configEntries eid with
            | some entry =>
                match extract_phone_digits entry with
                | some pd =>
                    if pd ≠ "" then
                      let candidate := "sensor." ++ pd ++ "_last_call_door_id"
                      if (statesGet hass.states candidate).isSome then some candidate
                      else none
                    else none
                | none => none
            | none => none
          match byPhone with
          | some c => some c
          | none =>
              let legacy := "sensor." ++ DOMAIN ++ "_" ++ eid ++ "_last_call_door_id"
              if (statesGet hass.states legacy).isSome then some legacy else none
    | none => none
  match fromEntry with
  | some c => some c
  | none =>
      ((hass.states.filter (fun st => st.entity_id.startsWith "sensor.")).find?
        (fun st => st.entity_id.endsWith "_last_call_door_id"
          && st.entity_id.startsWith "sensor.")).map (·.entity_id)

/-- Errors raised by the door-id / key-id service handlers: either a
`HomeAssistantError` with a message built by the handler, or some other
exception (e.g. one propagating out of the vendor client) carried by its
opaque tag. -/
inductive ActionError where
  | homeAssistantError (msg : String)
  | pyError (e : String)
deriving DecidableEq

/-- Whether an `ActionError` is a `HomeAssistantError`. -/
def ActionError.isHAError : ActionError → Bool
  | .homeAssistantError _ => true
  | .pyError _ => false

/-- The success test used at every vendor-response site:
`isinstance(res, dict) and res.get("ok") is True`. -/
def respIsOkTrue : Value → Bool
  | .dict d => alistGet d "ok" == some (Scalar.b true)
  | _ => false

/-- Embedding of `actions.handle_open_relay_by_door_id`: raises
`HomeAssistantError` when no entry is selected, when the API client is
missing, or when the vendor response is not a dict with `ok: true`;
an exception raised by the vendor call itself propagates unchanged.
(The `KeyError` branch is unreachable: a selected entry id is always a
registry key.) -/
def handle_open_relay_by_door_id (hass : Hass) (door_id : String)
    (requested : Option String) : Except ActionError Unit :=
  match _select_entry_id hass.domainData requested with
  | none => .error (.homeAssistantError "No Domonap config entries are set up")
  | some entry_id =>
      match alistGet hass.domainData entry_id with
      | none => .error (.pyError "KeyError")
      | some ed =>
          match ed.api with
          | none => .error (.homeAssistantError
              ("Domonap API is not available for entry_id=" ++ entry_id))
          | some api =>
              match api.openRelayByDoorId door_id with
              | .error e => .error (.pyError e)
              | .ok res =>
                  if respIsOkTrue res then .ok ()
                  else .error (.homeAssistantError
                      ("Failed to open relay by door_id=" ++ door_id))

/-- Embedding of `actions.handle_open_relay_by_key_id`, identical in shape
to the door-id handler but keyed by key id. -/
def handle_open_relay_by_key_id (hass : Hass) (key_id : String)
    (requested : Option String) : Except ActionError Unit :=
  match _select_entry_id hass.domainData requested with
  | none => .error (.homeAssistantError "No Domonap config entries are set up")
  | some entry_id =>
      match alistGet hass.domainData entry_id with
      | none => .error (.pyError "KeyError")
      | some ed =>
          match ed.api with
          | none => .error (.homeAssistantError
              ("Domonap API is not available for entry_id=" ++ entry_id))
          | some api =>
              match api.openRelayByKeyId key_id with
              | .error e => .error (.pyError e)
              | .ok res =>
                  if respIsOkTrue res then .ok ()
                  else .error (.homeAssistantError
                      ("Failed to open relay by key_id=" ++ key_id))

/-- An observable call made to the vendor client during a workflow. -/
inductive VendorCall where
  | openDoor (door_id : String)
  | openKey (key_id : String)
  | endCall (call_id : String)
deriving DecidableEq

/-- Whether a vendor call is an `end_call_notify` invocation. -/
def VendorCall.isEndCall : VendorCall → Bool
  | .endCall _ => true
  | _ => false

/-- The structured result dictionary returned by the last-call handler.
A field whose value is `none` models a key that is absent from the
returned dict; a present key holding Python `None` is `some vNone`. -/
structure OpenRelayResult where
  status : String
  reason : Option String := none
  door_id : Option String := none
  door_name : Option Value := none
  call_id : Option Value := none
  end_call_result : Option Value := none
  entity_id : Option String := none
  config_entry_id : Option String := none
  state : Option String := none
  response : Option Value := none
deriving DecidableEq

/-- The "empty" sentinel states recognised by both the last-call handler
and the button: `("unknown", "unavailable", "none", "None", "")`. -/
def emptySentinels : List String := ["unknown", "unavailable", "none", "None", ""]

/-- The `CallId` extraction shared by `actions.py` and `button.py`:
`str(raw_call_id).strip() if raw_call_id is not None else ""`. -/
def callIdOf (raw : Value) : String :=
  if raw = vNone then "" else pyStrip raw.pyStr

/-- The best-effort door-name probe from `actions.py`:
`attrs.get("DoorName") or attrs.get("door_name") or attrs.get("Address")
or attrs.get("Body") or attrs.get("Title")`. -/
def doorNameOf (attrs : List (String × Value)) : Value :=
  pyOr (alistGetV attrs "DoorName")
    (pyOr (alistGetV attrs "door_name")
      (pyOr (alistGetV attrs "Address")
        (pyOr (alistGetV attrs "Body") (alistGetV attrs "Title"))))

/-- Embedding of `actions.handle_open_relay_by_last_call_door_id`.
Returns the handler outcome (`Except.error e` models an exception `e`
escaping to the caller) together with the ordered list of vendor calls
made.  Expected failures produce structured `status`/`reason` results;
the vendor `open_relay_by_door_id` call is not guarded, so its exception
propagates; an `end_call_notify` exception is caught and captured as
`(ok: False, error: "exception")`. -/
def handle_open_relay_by_last_call_door_id (hass : Hass)
    (requested : Option String) (entity_arg : Option String) :
    Except String OpenRelayResult × List VendorCall :=
  match _select_entry_id hass.domainData requested with
  | none => (.ok { status := "error", reason := some "no_config_entries" }, [])
  | some entry_id =>
      match alistGet hass.domainData entry_id with
      | none => (.error "KeyError", [])
      | some ed =>
          match ed.api with
          | none => (.ok { status := "error", reason := some "api_unavailable",
                           config_entry_id := some entry_id }, [])
          | some api =>
              let e1 : Option String :=
                if optTruthy entity_arg then entity_arg
                else _find_last_call_sensor_entity_id hass (some entry_id)
              match e1 with
              | none => (.ok { status := "error", reason := some "sensor_not_found",
                               config_entry_id := some entry_id }, [])
              | some eid =>
                  if eid = "" then
                    (.ok { status := "error", reason := some "sensor_not_found",
                           config_entry_id := some entry_id }, [])
                  else
                    match statesGet hass.states eid with
                    | none => (.ok { status := "error", reason := some "sensor_not_found",
                                     entity_id := some eid }, [])
                    | some st =>
                        if st.state ∈ emptySentinels then
                          (.ok { status := "skipped", reason := some "no_last_call",
                                 entity_id := some eid, state := some st.state }, [])
                        else
                          let door_id := st.state
                          let attrs := st.attributes
                          let call_id := callIdOf (alistGetV attrs "CallId")
                          let door_name := doorNameOf attrs
                          match api.openRelayByDoorId door_id with
                          | .error e => (.error e, [.openDoor door_id])
                          | .ok res =>
                              let ok := respIsOkTrue res
                              let ec : Value × List VendorCall :=
                                if ok ∧ call_id ≠ "" then
                                  (match api.endCallNotify call_id with
                                   | .ok v => v
                                   | .error _ =>
                                       .dict [("ok", .b false), ("error", .s "exception")],
                                   [.endCall call_id])
                                else (vNone, [])
                              (.ok { status := if ok then "ok" else "error",
                                     door_id := some door_id,
                                     door_name := some door_name,
                                     call_id := some (if call_id = "" then vNone
                                       else vStr call_id),
                                     end_call_result := some ec.1,
                                     entity_id := some eid,
                                     config_entry_id := some entry_id,
                                     response := some res },
                               .openDoor door_id :: ec.2)

/-- Embedding of `button.IntercomOpenLastCallDoor.async_press`, returning
the ordered list of vendor calls it makes.  The sensor is addressed by the
fixed name `sensor.<phone_digits>_last_call_door_id` with no fallback; a
missing sensor or a sentinel value means no vendor call; every exception
inside the `try` block (including one from the vendor open call) is caught
and logged. -/
def button_async_press (hass : Hass) (api : ApiClient) (phone_digits : String) :
    List VendorCall :=
  let sensor_entity_id := "sensor." ++ phone_digits ++ "_last_call_door_id"
  match statesGet hass.states sensor_entity_id with
  | none => []
  | some state =>
      if state.state ∈ emptySentinels then []
      else
        let door_id := state.state
        let raw_call_id :=
          if !state.attributes.isEmpty then alistGetV state.attributes "CallId"
          else vNone
        let call_id := callIdOf raw_call_id
        match api.openRelayByDoorId door_id with
        | .error _ => [.openDoor door_id]
        | .ok res =>
            if respIsOkTrue res then
              if call_id ≠ "" then [.openDoor door_id, .endCall call_id]
              else [.openDoor door_id]
            else [.openDoor door_id]

/-- The mutable state of `sensor.DomonapLastCallDoorIdSensor`: the tracked
`_state` (door id of the last call, initially `None`) and the attribute
dictionary `_attrs`. -/
structure TrackerState where
  state : Option String
  attrs : List (String × Value)
deriving DecidableEq

/-- Embedding of `DomonapLastCallDoorIdSensor._handle_incoming_call`.
`nowIso` stands for `datetime.now(timezone.utc).isoformat()` at the moment
the event is processed.  A falsy `DoorId` (absent, `None`, empty string,
zero, `False`) leaves the tracker untouched; otherwise the state becomes
`str(DoorId)` and the attributes are replaced by a copy of the whole event
payload with a `"ts"` key set to `nowIso + "Z"`. -/
def _handle_incoming_call (ts : TrackerState)
    (eventData : List (String × Value)) (nowIso : String) : TrackerState :=
  let door_id := alistGetV eventData "DoorId"
  if !door_id.truthy then ts
  else
    { state := some door_id.pyStr,
      attrs := alistSet eventData "ts" (vStr (nowIso ++ "Z")) }

/-- An entity created by `sensor.async_setup_entry`: either a per-door
PIN-code sensor (`DomonapDoorCodeSensor`) or the per-account last-call
sensor (`DomonapLastCallDoorIdSensor`). -/
inductive SensorEntityModel where
  | doorCode (key_id door_id device_name pin : Value)
      (key_data : List (String × Value))
  | lastCall (entry_id : String) (phone_digits : Option String)
deriving DecidableEq

/-- The key record a PIN-code sensor was built from (`key_data`), when the
entity is one. -/
def SensorEntityModel.keyData : SensorEntityModel → Option (List (String × Value))
  | .doorCode _ _ _ _ kd => some kd
  | .lastCall _ _ => none

/-- The per-record body of the `for key in keys` loop in
`sensor.async_setup_entry`: `key["id"]`, `key["doorId"]` and `key["name"]`
are read (a missing key raises, which the `except` swallows — the record
is skipped), then `key.get("domofonPublicPin")` must be truthy
(`if not pin: continue`), and only then is a `DomonapDoorCodeSensor`
built carrying the whole record. -/
def pinSensorOf (key : List (String × Value)) : Option SensorEntityModel :=
  match alistGet key "id", alistGet key "doorId", alistGet key "name" with
  | some kid, some did, some nm =>
      let pin := alistGetV key "domofonPublicPin"
      if pin.truthy then some (.doorCode kid did nm pin key) else none
  | _, _, _ => none

/-- Embedding of `sensor.async_setup_entry` on the key records returned in
`get_paged_keys()["results"]`: one PIN sensor per qualifying record (in
order), then unconditionally the per-account last-call sensor. -/
def sensor_async_setup_entities (keys : List (List (String × Value)))
    (entry : ConfigEntry) (entry_id : String) : List SensorEntityModel :=
  keys.filterMap pinSensorOf ++
    [SensorEntityModel.lastCall entry_id (extract_phone_digits entry)]

/-! ## Specification predicates and concrete fixtures -/

/-- Behavioural description of a digit-extraction result against its source
string: absence exactly when the source has no digit, otherwise the digit
characters of the source in their original order (a sublist of the source). -/
def digitsResultSpec (src : String) (res : Option String) : Prop :=
  (res = none ↔ ∀ c ∈ src.data, ¬ c.isDigit) ∧
  ∀ d, res = some d →
    d ≠ "" ∧ d.data = src.data.filter Char.isDigit ∧ d.data.Sublist src.data

/-- A vendor response dictionary meaning success: `(ok: True)`. -/
def okTrueResp : Value := Value.dict [("ok", Scalar.b true)]

/-- A client whose every call succeeds with `(ok: True)`. -/
def apiHappy : ApiClient :=
  ⟨fun _ => .ok okTrueResp, fun _ => .ok okTrueResp, fun _ => .ok okTrueResp⟩

/-- A client whose every call raises. -/
def apiBoom : ApiClient :=
  ⟨fun _ => .error "boom", fun _ => .error "boom", fun _ => .error "boom"⟩

/-- A client whose relay-open calls succeed but whose `end_call_notify`
raises. -/
def apiEndFail : ApiClient :=
  ⟨fun _ => .ok okTrueResp, fun _ => .ok okTrueResp, fun _ => .error "endboom"⟩

/-- Entry data holding the happy client. -/
def edHappy : EntryData := ⟨some apiHappy⟩

/-- A last-call sensor state with a pending call (`CallId` needing a trim). -/
def stCall : HAState :=
  ⟨"sensor.79991234567_last_call_door_id", "d42", [("CallId", vStr " 123 ")]⟩

/-- A last-call sensor state holding the `unknown` sentinel. -/
def stUnknown : HAState := ⟨"sensor.79991234567_last_call_door_id", "unknown", []⟩

/-- Host with one entry, a happy client and a pending call. -/
def hassHappy : Hass := ⟨[("e1", edHappy)], [], [stCall]⟩

/-- Host with one entry, a happy client and a sentinel sensor value. -/
def hassSentinel : Hass := ⟨[("e1", edHappy)], [], [stUnknown]⟩

/-- Host whose client fails only on `end_call_notify`. -/
def hassEndFail : Hass := ⟨[("e1", ⟨some apiEndFail⟩)], [], [stCall]⟩

/-- Host whose client raises on every vendor call. -/
def hassBoom : Hass := ⟨[("e1", ⟨some apiBoom⟩)], [], [stCall]⟩

/-- The structured result the happy host produces for the last-call action. -/
def resC1w : OpenRelayResult :=
  ((handle_open_relay_by_last_call_door_id hassHappy none
      (some "sensor.79991234567_last_call_door_id")).1).toOption.getD { status := "" }

/-- Config entry whose phone number has no digits while the title does. -/
def entryC3 : ConfigEntry := ⟨[("phone_number", vStr "abc")], "123"⟩

/-- Config entry with a formatted phone number. -/
def entryC3w : ConfigEntry := ⟨[("phone_number", vStr " +7 (999) 123-45-67 ")], "t"⟩

/-- Config entry with neither phone data nor a usable title. -/
def entryEmpty : ConfigEntry := ⟨[], ""⟩

/-- Config entry whose phone number yields the digits `79991234567`. -/
def entryPhone : ConfigEntry := ⟨[("phone_number", vStr "+7 999 123-45-67")], "t"⟩

/-- Host where only the legacy-named last-call sensor exists. -/
def hassLegacy : Hass :=
  ⟨[("e1", edHappy)], [("e1", entryEmpty)],
   [⟨"sensor.domonap_e1_last_call_door_id", "9", []⟩]⟩

/-- Host where the canonical phone-named last-call sensor exists. -/
def hassCanon : Hass := ⟨[("e1", edHappy)], [("e1", entryPhone)], [stCall]⟩

/-- Registry with two accounts registered as `A` then `B`. -/
def ddC8 : List (String × EntryData) := [("A", ⟨none⟩), ("B", ⟨none⟩)]

/-- Tracker state with a previously tracked call. -/
def tsC5 : TrackerState := ⟨some "5", [("old", vStr "x")]⟩

/-- Incoming-call event whose `DoorId` is the integer `0` (falsy but present). -/
def evC5 : List (String × Value) := [("DoorId", vInt 0), ("CallId", vInt 7)]

/-- Incoming-call event with a string `DoorId`. -/
def evC5w : List (String × Value) := [("DoorId", vStr "42"), ("CallId", vInt 7)]

/-- Key records: one complete with a PIN, one without a PIN, one missing
the `id` field. -/
def keysC10 : List (List (String × Value)) :=
  [[("id", vStr "k1"), ("doorId", vStr "d1"), ("name", vStr "Front"),
    ("domofonPublicPin", vStr "1234")],
   [("id", vStr "k2"), ("doorId", vStr "d2"), ("name", vStr "Back")],
   [("doorId", vStr "d3"), ("name", vStr "Side"), ("domofonPublicPin", vStr "9")]]

/-! ## Association-list and selector lemmas -/

theorem alistGet_nil {α : Type} (k : String) :
    alistGet ([] : List (String × α)) k = none := rfl


theorem alistGet_cons {α : Type} (k2 : String) (v2 : α) (t : List (String × α))
    (k : String) :
    alistGet ((k2, v2) :: t) k = if k2 = k then some v2 else alistGet t k := by
  by_cases h : k2 = k
  · simp [alistGet, List.find?_cons_of_pos, h]
  · simp [alistGet, List.find?_cons_of_neg, h]

theorem alistGet_alistSet_self {α : Type} (l : List (String × α)) (k : String) (v : α) :
    alistGet (alistSet l k v) k = some v := by
  induction l with
  | nil => simp [alistGet, alistSet, List.find?]
  | cons hd tl ih =>
      obtain ⟨k2, v2⟩ := hd
      by_cases hk : k2 = k
      · subst hk
        simp [alistSet, alistGet_cons]
      · simp [alistSet, hk, alistGet_cons, ih]

theorem alistGet_alistSet_ne {α : Type} (l : List (String × α)) (k k' : String) (v : α)
    (h : k' ≠ k) : alistGet (alistSet l k v) k' = alistGet l k' := by
  induction l with
  | nil => simp [alistSet, alistGet_cons, Ne.symm h, alistGet_nil]
  | cons hd tl ih =>
      obtain ⟨k2, v2⟩ := hd
      by_cases hk : k2 = k
      · subst hk
        simp [alistSet, alistGet_cons, Ne.symm h]
      · simp [alistSet, hk, alistGet_cons, ih]

theorem select_entry_isSome (dd : List (String × EntryData)) (req : Option String)
    (e : String) (h : _select_entry_id dd req = some e) : (alistGet dd e).isSome := by
  unfold _select_entry_id at h
  cases dd with
  | nil => simp at h
  | cons hd tl =>
      obtain ⟨k1, d1⟩ := hd
      simp only [List.isEmpty_cons, Bool.false_eq_true, if_false] at h
      cases req with
      | none =>
          simp [List.head?] at h
          subst h
          simp [alistGet_cons]
      | some r =>
          by_cases hr : r = ""
          · subst hr
            simp [List.head?] at h
            subst h
            simp [alistGet_cons]
          · simp only [ne_eq, hr, not_false_eq_true, if_true] at h
            by_cases hs : (alistGet ((k1, d1) :: tl) r).isSome
            · simp only [hs, if_true, Option.some.injEq] at h
              subst h
              exact hs
            · simp [hs] at h

/-- Behavioural description of a digit-extraction result against its source
string: absence exactly when the source has no digit, otherwise the digit
characters of the source in their original order. -/

theorem digitsOrNone_spec (s : String) : digitsResultSpec s (digitsOrNone s) := by
  constructor
  · constructor
    · intro h c hc hd
      simp only [digitsOrNone, stripNonDigits] at h
      by_cases he : String.mk (s.data.filter Char.isDigit) = ""
      · have : s.data.filter Char.isDigit = [] := by
          have := congrArg String.data he
          simpa using this
        rw [List.filter_eq_nil_iff] at this
        exact this c hc (by simpa using hd)
      · simp [he] at h
    · intro h
      have : s.data.filter Char.isDigit = [] := by
        rw [List.filter_eq_nil_iff]
        intro c hc
        simpa using h c hc
      simp [digitsOrNone, stripNonDigits, this]
  · intro d hd
    simp only [digitsOrNone, stripNonDigits] at hd
    by_cases he : String.mk (s.data.filter Char.isDigit) = ""
    · simp [he] at hd
    · simp only [he, if_false, Option.some.injEq] at hd
      subst hd
      refine ⟨he, rfl, List.filter_sublist _⟩

theorem digitsOrNone_ne_empty (s d : String) (h : digitsOrNone s = some d) : d ≠ "" := by
  unfold digitsOrNone at h
  by_cases he : stripNonDigits s = ""
  · simp [he] at h
  · simp only [he, if_false, Option.some.injEq] at h
    subst h
    exact he

theorem extract_phone_digits_ne_empty (e : ConfigEntry) (d : String)
    (h : extract_phone_digits e = some d) : d ≠ "" := by
  unfold extract_phone_digits at h
  rcases hv : alistGet e.data "phone_number" with _ | v
  · rw [hv] at h
    exact digitsOrNone_ne_empty _ _ h
  · rcases v with sc | dd
    · rcases sc with p | n | bv | _
      · rw [hv] at h
        replace h : (if pyStrip p ≠ "" then digitsOrNone p else digitsOrNone e.title)
            = some d := h
        by_cases hp : pyStrip p ≠ ""
        · rw [if_pos hp] at h
          exact digitsOrNone_ne_empty _ _ h
        · rw [if_neg hp] at h
          exact digitsOrNone_ne_empty _ _ h
      · rw [hv] at h
        exact digitsOrNone_ne_empty _ _ h
      · rw [hv] at h
        exact digitsOrNone_ne_empty _ _ h
      · rw [hv] at h
        exact digitsOrNone_ne_empty _ _ h
    · rw [hv] at h
      exact digitsOrNone_ne_empty _ _ h

theorem lastCall_sentinel (hass : Hass) (req earg : Option String) (entry_id : String)
    (ed : EntryData) (api : ApiClient) (eid : String) (st : HAState)
    (hsel : _select_entry_id hass.domainData req = some entry_id)
    (hed : alistGet hass.domainData entry_id = some ed)
    (hapi : ed.api = some api)
    (hent : (if optTruthy earg then earg
             else _find_last_call_sensor_entity_id hass (some entry_id)) = some eid)
    (hne : eid ≠ "")
    (hst : statesGet hass.states eid = some st)
    (hsent : st.state ∈ emptySentinels) :
    handle_open_relay_by_last_call_door_id hass req earg =
      (Except.ok { status := "skipped", reason := some "no_last_call",
                   entity_id := some eid, state := some st.state }, []) := by
  unfold handle_open_relay_by_last_call_door_id
  simp only [hsel, hed, hapi, hent, hst, hne, hsent, ne_eq, not_false_eq_true,
    if_true, if_false]

theorem lastCall_vendor_error (hass : Hass) (req earg : Option String) (entry_id : String)
    (ed : EntryData) (api : ApiClient) (eid : String) (st : HAState) (e : String)
    (hsel : _select_entry_id hass.domainData req = some entry_id)
    (hed : alistGet hass.domainData entry_id = some ed)
    (hapi : ed.api = some api)
    (hent : (if optTruthy earg then earg
             else _find_last_call_sensor_entity_id hass (some entry_id)) = some eid)
    (hne : eid ≠ "")
    (hst : statesGet hass.states eid = some st)
    (hsent : st.state ∉ emptySentinels)
    (hres : api.openRelayByDoorId st.state = Except.error e) :
    handle_open_relay_by_last_call_door_id hass req earg =
      (Except.error e, [VendorCall.openDoor st.state]) := by
  unfold handle_open_relay_by_last_call_door_id
  simp only [hsel, hed, hapi, hent, hst, hne, hsent, hres, ne_eq, not_false_eq_true,
    if_true, if_false]

theorem lastCall_vendor_ok (hass : Hass) (req earg : Option String) (entry_id : String)
    (ed : EntryData) (api : ApiClient) (eid : String) (st : HAState) (res : Value)
    (hsel : _select_entry_id hass.domainData req = some entry_id)
    (hed : alistGet hass.domainData entry_id = some ed)
    (hapi : ed.api = some api)
    (hent : (if optTruthy earg then earg
             else _find_last_call_sensor_entity_id hass (some entry_id)) = some eid)
    (hne : eid ≠ "")
    (hst : statesGet hass.states eid = some st)
    (hsent : st.state ∉ emptySentinels)
    (hres : api.openRelayByDoorId st.state = Except.ok res) :
    handle_open_relay_by_last_call_door_id hass req earg =
      (let call_id := callIdOf (alistGetV st.attributes "CallId")
       let ok := respIsOkTrue res
       let ec : Value × List VendorCall :=
         if ok ∧ call_id ≠ "" then
           (match api.endCallNotify call_id with
            | .ok v => v
            | .error _ => .dict [("ok", .b false), ("error", .s "exception")],
            [.endCall call_id])
         else (vNone, [])
       (Except.ok { status := if ok then "ok" else "error",
                    door_id := some st.state,
                    door_name := some (doorNameOf st.attributes),
                    call_id := some (if call_id = "" then vNone else vStr call_id),
                    end_call_result := some ec.1,
                    entity_id := some eid,
                    config_entry_id := some entry_id,
                    response := some res },
        VendorCall.openDoor st.state :: ec.2)) := by
  unfold handle_open_relay_by_last_call_door_id
  simp only [hsel, hed, hapi, hent, hst, hne, hsent, hres, ne_eq, not_false_eq_true,
    if_true, if_false]

theorem find_canonical (hass : Hass) (entry_id pd : String) (entry : ConfigEntry)
    (hneid : entry_id ≠ "")
    (hce : alistGet hass.configEntries entry_id = some entry)
    (hpd : extract_phone_digits entry = some pd)
    (hcand : (statesGet hass.states ("sensor." ++ pd ++ "_last_call_door_id")).isSome) :
    _find_last_call_sensor_entity_id hass (some entry_id) =
      some ("sensor." ++ pd ++ "_last_call_door_id") := by
  have hpdne : pd ≠ "" := extract_phone_digits_ne_empty entry pd hpd
  unfold _find_last_call_sensor_entity_id
  simp only [hce, hpd, hneid, hpdne, hcand, ne_eq, not_false_eq_true, if_true, if_false]

theorem button_raw_call_id (attrs : List (String × Value)) :
    (if !attrs.isEmpty then alistGetV attrs "CallId" else vNone) =
      alistGetV attrs "CallId" := by
  cases attrs with
  | nil => simp [alistGetV, alistGet, List.find?]
  | cons hd tl => simp

/-! ## Claim theorems -/

/-- C1 counterexample: when the vendor `open_relay_by_door_id` raises, the
last-call handler does not return a structured result — the exception
propagates to the caller, refuting the claim that it never raises for any
collaborator behaviour. -/
theorem c1_counterexample :
    (handle_open_relay_by_last_call_door_id hassBoom none
        (some "sensor.79991234567_last_call_door_id")).1 = Except.error "boom" := rfl
/-- C1 (amended): the last-call handler never raises except when the
unguarded vendor `open_relay_by_door_id` call itself raises.  Every
returned value is a structured result whose `status` is `ok`, `error` or
`skipped`, and an escaping exception is exactly one raised by the resolved
client's relay-open call, made after the single `open` vendor call. -/
theorem c1_amended (hass : Hass) (req earg : Option String) :
    (∀ r, (handle_open_relay_by_last_call_door_id hass req earg).1 = Except.ok r →
        r.status = "ok" ∨ r.status = "error" ∨ r.status = "skipped")
    ∧ (∀ e, (handle_open_relay_by_last_call_door_id hass req earg).1 = Except.error e →
        ∃ entry_id ed api d,
          _select_entry_id hass.domainData req = some entry_id
          ∧ alistGet hass.domainData entry_id = some ed
          ∧ ed.api = some api
          ∧ api.openRelayByDoorId d = Except.error e
          ∧ (handle_open_relay_by_last_call_door_id hass req earg).2
              = [VendorCall.openDoor d]) := by
  constructor
  · intro r h
    unfold handle_open_relay_by_last_call_door_id at h
    cases hsel : _select_entry_id hass.domainData req with
    | none =>
        simp only [hsel] at h
        simp at h
        simp [← h]
    | some entry_id =>
        simp only [hsel] at h
        cases hed : alistGet hass.domainData entry_id with
        | none => simp only [hed] at h; simp at h
        | some ed =>
            simp only [hed] at h
            cases hapi : ed.api with
            | none =>
                simp only [hapi] at h
                simp at h
                simp [← h]
            | some api =>
                simp only [hapi] at h
                cases hent : (if optTruthy earg then earg
                    else _find_last_call_sensor_entity_id hass (some entry_id)) with
                | none =>
                    simp only [hent] at h
                    simp at h
                    simp [← h]
                | some eid =>
                    simp only [hent] at h
                    by_cases hne : eid = ""
                    · simp only [hne, if_pos rfl] at h
                      simp at h
                      simp [← h]
                    · simp only [if_neg hne] at h
                      cases hst : statesGet hass.states eid with
                      | none =>
                          simp only [hst] at h
                          simp at h
                          simp [← h]
                      | some st =>
                          simp only [hst] at h
                          by_cases hsent : st.state ∈ emptySentinels
                          · simp only [if_pos hsent] at h
                            simp at h
                            simp [← h]
                          · simp only [if_neg hsent] at h
                            cases hres : api.openRelayByDoorId st.state with
                            | error e => simp only [hres] at h; simp at h
                            | ok res =>
                                simp only [hres] at h
                                simp at h
                                rw [← h]
                                by_cases hok : respIsOkTrue res = true
                                · simp [hok]
                                · simp [hok]
  · intro e h
    unfold handle_open_relay_by_last_call_door_id at h
    cases hsel : _select_entry_id hass.domainData req with
    | none => simp only [hsel] at h; simp at h
    | some entry_id =>
        simp only [hsel] at h
        cases hed : alistGet hass.domainData entry_id with
        | none =>
            have := select_entry_isSome hass.domainData req entry_id hsel
            rw [hed] at this
            simp at this
        | some ed =>
            simp only [hed] at h
            cases hapi : ed.api with
            | none => simp only [hapi] at h; simp at h
            | some api =>
                simp only [hapi] at h
                cases hent : (if optTruthy earg then earg
                    else _find_last_call_sensor_entity_id hass (some entry_id)) with
                | none => simp only [hent] at h; simp at h
                | some eid =>
                    simp only [hent] at h
                    by_cases hne : eid = ""
                    · simp only [hne, if_pos rfl] at h
                      simp at h
                    · simp only [if_neg hne] at h
                      cases hst : statesGet hass.states eid with
                      | none => simp only [hst] at h; simp at h
                      | some st =>
                          simp only [hst] at h
                          by_cases hsent : st.state ∈ emptySentinels
                          · simp only [if_pos hsent] at h
                            simp at h
                          · simp only [if_neg hsent] at h
                            cases hres : api.openRelayByDoorId st.state with
                            | ok res => simp only [hres] at h; simp at h
                            | error e2 =>
                                simp only [hres] at h
                                simp at h
                                subst h
                                refine ⟨entry_id, ed, api, st.state, rfl, hed, hapi,
                                  hres, ?_⟩
                                rw [lastCall_vendor_error hass req earg entry_id ed api
                                  eid st e2 hsel hed hapi hent hne hst hsent hres]
/-- C1 witness: concrete happy-path run, discharging the hypotheses of the
amended theorem at an explicit input. -/
theorem c1_witness :
    resC1w.status = "ok" ∨ resC1w.status = "error" ∨ resC1w.status = "skipped" :=
  (c1_amended hassHappy none (some "sensor.79991234567_last_call_door_id")).1 resC1w rfl
/-- C2 counterexample: when the vendor call raises, the door/key handlers
propagate the original exception instead of raising a
`HomeAssistantError` (`RelayOpenFailed`-style) carrying the id. -/
theorem c2_counterexample :
    handle_open_relay_by_door_id hassBoom "d1" none =
      Except.error (ActionError.pyError "boom")
    ∧ (ActionError.pyError "boom").isHAError = false
    ∧ handle_open_relay_by_key_id hassBoom "k1" none =
      Except.error (ActionError.pyError "boom") :=
  ⟨rfl, rfl, rfl⟩
/-- C2 (amended): with a configured account and available client, the
door-id and key-id handlers return normally iff the vendor call returned a
dict with `ok: true`; a returned non-success response raises
`HomeAssistantError` carrying the id; a vendor exception propagates
unchanged (a failure, but not the `RelayOpenFailed`-style error). -/
theorem c2_amended (hass : Hass) (door_id key_id : String) (req : Option String)
    (entry_id : String) (ed : EntryData) (api : ApiClient)
    (hsel : _select_entry_id hass.domainData req = some entry_id)
    (hed : alistGet hass.domainData entry_id = some ed)
    (hapi : ed.api = some api) :
    ((handle_open_relay_by_door_id hass door_id req = Except.ok () ↔
        ∃ r, api.openRelayByDoorId door_id = Except.ok r ∧ respIsOkTrue r = true)
      ∧ (∀ r, api.openRelayByDoorId door_id = Except.ok r → respIsOkTrue r = false →
          handle_open_relay_by_door_id hass door_id req = Except.error
            (.homeAssistantError ("Failed to open relay by door_id=" ++ door_id)))
      ∧ (∀ e, api.openRelayByDoorId door_id = Except.error e →
          handle_open_relay_by_door_id hass door_id req = Except.error (.pyError e)))
    ∧ ((handle_open_relay_by_key_id hass key_id req = Except.ok () ↔
        ∃ r, api.openRelayByKeyId key_id = Except.ok r ∧ respIsOkTrue r = true)
      ∧ (∀ r, api.openRelayByKeyId key_id = Except.ok r → respIsOkTrue r = false →
          handle_open_relay_by_key_id hass key_id req = Except.error
            (.homeAssistantError ("Failed to open relay by key_id=" ++ key_id)))
      ∧ (∀ e, api.openRelayByKeyId key_id = Except.error e →
          handle_open_relay_by_key_id hass key_id req = Except.error (.pyError e))) := by
  constructor
  · unfold handle_open_relay_by_door_id
    refine ⟨?_, ?_, ?_⟩
    · cases hres : api.openRelayByDoorId door_id with
      | error e => simp [hsel, hed, hapi, hres]
      | ok res =>
          by_cases hok : respIsOkTrue res = true
          · simp [hsel, hed, hapi, hres, hok]
          · simp only [hsel, hed, hapi, hres]
            simp [hok]
    · intro r hres hok
      simp [hsel, hed, hapi, hres, hok]
    · intro e hres
      simp [hsel, hed, hapi, hres]
  · unfold handle_open_relay_by_key_id
    refine ⟨?_, ?_, ?_⟩
    · cases hres : api.openRelayByKeyId key_id with
      | error e => simp [hsel, hed, hapi, hres]
      | ok res =>
          by_cases hok : respIsOkTrue res = true
          · simp [hsel, hed, hapi, hres, hok]
          · simp only [hsel, hed, hapi, hres]
            simp [hok]
    · intro r hres hok
      simp [hsel, hed, hapi, hres, hok]
    · intro e hres
      simp [hsel, hed, hapi, hres]
/-- C2 witness: the door handler returns normally on a concrete host whose
vendor call yields `(ok: True)`. -/
theorem c2_witness :
    handle_open_relay_by_door_id hassHappy "d1" none = Except.ok () :=
  (c2_amended hassHappy "d1" "k1" none "e1" edHappy apiHappy rfl rfl rfl).1.1.mpr
    ⟨okTrueResp, rfl, rfl⟩
/-- C3 counterexample: a trimmed-non-empty `phone_number` with no digits
yields absence even though the title has digits — the code does not fall
through to the title, while the spec-modelled resolver does. -/
theorem c3_counterexample :
    extract_phone_digits entryC3 = none ∧
    spec_extract_phone_digits entryC3 = some "123" ∧
    entryC3.title = "123" := by decide
/-- C3 (amended): if `phone_number` is a string that is non-empty after
trimming, the result is its digits in original order, or absent when it
has none (no fall-through to the title); only when `phone_number` is
absent, not a string, or blank after trimming are the title's digits used,
with absence when the title has none.  No exception is raised (the
resolver is total). -/
theorem c3_amended (e : ConfigEntry) :
    (∀ phone, alistGet e.data "phone_number" = some (vStr phone) →
        pyStrip phone ≠ "" → digitsResultSpec phone (extract_phone_digits e))
    ∧ ((∀ phone, alistGet e.data "phone_number" = some (vStr phone) → pyStrip phone = "")
        → digitsResultSpec e.title (extract_phone_digits e)) := by
  constructor
  · intro phone hp hne
    unfold extract_phone_digits
    simp only [hp, vStr, hne, ne_eq, not_false_eq_true, if_true]
    exact digitsOrNone_spec phone
  · intro hall
    unfold extract_phone_digits
    cases hv : alistGet e.data "phone_number" with
    | none => exact digitsOrNone_spec e.title
    | some v =>
        cases v with
        | dict d => exact digitsOrNone_spec e.title
        | scalar sc =>
            cases sc with
            | s p =>
                have := hall p (by rw [hv]; rfl)
                simp only [this, ne_eq, not_true_eq_false, if_false]
                exact digitsOrNone_spec e.title
            | i n => exact digitsOrNone_spec e.title
            | b bv => exact digitsOrNone_spec e.title
            | none => exact digitsOrNone_spec e.title
/-- C3 witness: digit extraction on a concrete formatted phone number. -/
theorem c3_witness :
    digitsResultSpec " +7 (999) 123-45-67 " (extract_phone_digits entryC3w) :=
  (c3_amended entryC3w).1 " +7 (999) 123-45-67 " rfl (by decide)
/-- C4 counterexample: with only the legacy-named sensor present, the
service falls back to it and opens the door while the button, which only
addresses the canonical phone-named sensor, makes no vendor call — the two
workflows are not the same for every shared sensor state. -/
theorem c4_counterexample :
    (handle_open_relay_by_last_call_door_id hassLegacy none none).2 =
      [VendorCall.openDoor "9"]
    ∧ button_async_press hassLegacy apiHappy "e1" = [] := ⟨rfl, rfl⟩
/-- C4 (amended): when the service resolves the same sensor entity the
button addresses — the canonical `sensor.<phone_digits>_last_call_door_id`
exists and the account's phone digits resolve — the button press performs
exactly the same vendor calls as the last-call service handler: same
sentinel skip, same relay-open call and same conditional end-call
notification. -/
theorem c4_amended (hass : Hass) (req : Option String) (entry_id : String)
    (ed : EntryData) (api : ApiClient) (entry : ConfigEntry) (pd : String) (st : HAState)
    (hsel : _select_entry_id hass.domainData req = some entry_id)
    (hneid : entry_id ≠ "")
    (hed : alistGet hass.domainData entry_id = some ed)
    (hapi : ed.api = some api)
    (hce : alistGet hass.configEntries entry_id = some entry)
    (hpd : extract_phone_digits entry = some pd)
    (hcand : statesGet hass.states ("sensor." ++ pd ++ "_last_call_door_id") = some st) :
    (handle_open_relay_by_last_call_door_id hass req none).2 =
      button_async_press hass api pd := by
  have hent : (if optTruthy none then (none : Option String)
      else _find_last_call_sensor_entity_id hass (some entry_id)) =
      some ("sensor." ++ pd ++ "_last_call_door_id") := by
    simpa [optTruthy] using
      find_canonical hass entry_id pd entry hneid hce hpd (by rw [hcand]; rfl)
  have hnename : ("sensor." ++ pd ++ "_last_call_door_id") ≠ "" := by
    intro hcon
    have hdata := congrArg String.data hcon
    simp [String.data_append] at hdata
  by_cases hsent : st.state ∈ emptySentinels
  · rw [lastCall_sentinel hass req none entry_id ed api _ st
      hsel hed hapi hent hnename hcand hsent]
    unfold button_async_press
    simp only [hcand, if_pos hsent]
  · cases hres : api.openRelayByDoorId st.state with
    | error e =>
        rw [lastCall_vendor_error hass req none entry_id ed api _ st e
          hsel hed hapi hent hnename hcand hsent hres]
        unfold button_async_press
        simp only [hcand, if_neg hsent, hres]
    | ok res =>
        rw [lastCall_vendor_ok hass req none entry_id ed api _ st res
          hsel hed hapi hent hnename hcand hsent hres]
        unfold button_async_press
        simp only [hcand, if_neg hsent, hres, button_raw_call_id]
        by_cases hok : respIsOkTrue res = true
        · by_cases hc : callIdOf (alistGetV st.attributes "CallId") = ""
          · simp [hok, hc]
          · simp [hok, hc]
        · simp [hok]
/-- C4 witness: equal vendor-call traces on a concrete host where the
canonical sensor exists. -/
theorem c4_witness :
    (handle_open_relay_by_last_call_door_id hassCanon none none).2 =
      button_async_press hassCanon apiHappy "79991234567" :=
  c4_amended hassCanon none "e1" edHappy apiHappy entryPhone "79991234567" stCall
    rfl (by decide) rfl rfl rfl (by decide) rfl
/-- C5 counterexample: an event carrying the integer `0` as `DoorId` — a
present, non-empty field — is ignored by the tracker (Python truthiness),
refuting the claim that only absent or empty door ids are ignored. -/
theorem c5_counterexample :
    _handle_incoming_call tsC5 evC5 "2026-01-01T00:00:00+00:00" = tsC5
    ∧ alistGet evC5 "DoorId" = some (vInt 0)
    ∧ (vInt 0).pyStr = "0"
    ∧ tsC5.state ≠ some "0" := by
  refine ⟨rfl, rfl, rfl, by decide⟩
/-- C5 (amended): an incoming-call event whose `DoorId` is falsy (absent,
`None`, empty, zero or `False`) leaves the tracker state entirely
unchanged; otherwise the tracked door id becomes the stringified field
value and the attributes are replaced wholesale by the event payload
stamped with a `ts` of the current UTC ISO time plus a `"Z"` marker
(other keys unchanged from the payload). -/
theorem c5_amended (ts : TrackerState) (ev : List (String × Value)) (nowIso : String) :
    ((alistGetV ev "DoorId").truthy = false → _handle_incoming_call ts ev nowIso = ts)
    ∧ ((alistGetV ev "DoorId").truthy = true →
        (_handle_incoming_call ts ev nowIso).state = some (alistGetV ev "DoorId").pyStr
        ∧ (_handle_incoming_call ts ev nowIso).attrs
            = alistSet ev "ts" (vStr (nowIso ++ "Z"))
        ∧ alistGet (_handle_incoming_call ts ev nowIso).attrs "ts"
            = some (vStr (nowIso ++ "Z"))
        ∧ ∀ k, k ≠ "ts" →
            alistGet (_handle_incoming_call ts ev nowIso).attrs k = alistGet ev k) := by
  constructor
  · intro h
    unfold _handle_incoming_call
    simp [h]
  · intro h
    have heq : _handle_incoming_call ts ev nowIso =
        ⟨some (alistGetV ev "DoorId").pyStr, alistSet ev "ts" (vStr (nowIso ++ "Z"))⟩ := by
      unfold _handle_incoming_call
      simp [h]
    rw [heq]
    exact ⟨rfl, rfl, alistGet_alistSet_self _ _ _,
      fun k hk => alistGet_alistSet_ne _ _ _ _ hk⟩
/-- C5 witness: a concrete event with `DoorId = "42"` updates the tracker. -/
theorem c5_witness :
    (_handle_incoming_call ⟨none, []⟩ evC5w "2026-02-03T04:05:06+00:00").state
      = some (alistGetV evC5w "DoorId").pyStr
    ∧ (_handle_incoming_call ⟨none, []⟩ evC5w "2026-02-03T04:05:06+00:00").attrs
        = alistSet evC5w "ts" (vStr ("2026-02-03T04:05:06+00:00" ++ "Z"))
    ∧ alistGet (_handle_incoming_call ⟨none, []⟩ evC5w "2026-02-03T04:05:06+00:00").attrs "ts"
        = some (vStr ("2026-02-03T04:05:06+00:00" ++ "Z"))
    ∧ ∀ k, k ≠ "ts" →
        alistGet (_handle_incoming_call ⟨none, []⟩ evC5w "2026-02-03T04:05:06+00:00").attrs k
          = alistGet evC5w k :=
  (c5_amended ⟨none, []⟩ evC5w "2026-02-03T04:05:06+00:00").2 (by decide)
/-- C6: in the last-call workflow, `end_call_notify` is invoked — exactly
once, with the stringified and trimmed `CallId` — iff the relay-open
response was a dict with `ok: true` and that trimmed call id is non-empty;
with `CallId` absent or all-whitespace (or the open failed or raised) it
is never invoked. -/
theorem c6_end_call_iff (hass : Hass) (req earg : Option String) (entry_id : String)
    (ed : EntryData) (api : ApiClient) (eid : String) (st : HAState)
    (hsel : _select_entry_id hass.domainData req = some entry_id)
    (hed : alistGet hass.domainData entry_id = some ed)
    (hapi : ed.api = some api)
    (hent : (if optTruthy earg then earg
             else _find_last_call_sensor_entity_id hass (some entry_id)) = some eid)
    (hne : eid ≠ "")
    (hst : statesGet hass.states eid = some st)
    (hsent : st.state ∉ emptySentinels) :
    (handle_open_relay_by_last_call_door_id hass req earg).2.filter VendorCall.isEndCall =
      (match api.openRelayByDoorId st.state with
       | .ok r =>
           if respIsOkTrue r ∧ callIdOf (alistGetV st.attributes "CallId") ≠ "" then
             [VendorCall.endCall (callIdOf (alistGetV st.attributes "CallId"))]
           else []
       | .error _ => []) := by
  cases hres : api.openRelayByDoorId st.state with
  | error e =>
      rw [lastCall_vendor_error hass req earg entry_id ed api eid st e
        hsel hed hapi hent hne hst hsent hres]
      simp [VendorCall.isEndCall]
  | ok res =>
      rw [lastCall_vendor_ok hass req earg entry_id ed api eid st res
        hsel hed hapi hent hne hst hsent hres]
      by_cases hP : respIsOkTrue res = true ∧ callIdOf (alistGetV st.attributes "CallId") ≠ ""
      · obtain ⟨h1, h2⟩ := hP
        simp [VendorCall.isEndCall, h1, h2]
      · simp only [if_neg hP]
        simp [VendorCall.isEndCall, hP]
/-- C6 witness: concrete run with `CallId = " 123 "` and a successful
open. -/
theorem c6_witness :
    (handle_open_relay_by_last_call_door_id hassHappy none
        (some "sensor.79991234567_last_call_door_id")).2.filter VendorCall.isEndCall =
      (match apiHappy.openRelayByDoorId stCall.state with
       | .ok r =>
           if respIsOkTrue r ∧ callIdOf (alistGetV stCall.attributes "CallId") ≠ "" then
             [VendorCall.endCall (callIdOf (alistGetV stCall.attributes "CallId"))]
           else []
       | .error _ => []) :=
  c6_end_call_iff hassHappy none (some "sensor.79991234567_last_call_door_id")
    "e1" edHappy apiHappy "sensor.79991234567_last_call_door_id" stCall
    rfl rfl rfl rfl (by decide) rfl (by decide)
/-- C7: if `end_call_notify` raises, the last-call handler still returns
`status = "ok"` with `end_call_result = (ok: False, error: "exception")` —
the primary relay-open outcome is never overwritten. -/
theorem c7_end_call_failure_captured (hass : Hass) (req earg : Option String)
    (entry_id : String) (ed : EntryData) (api : ApiClient) (eid : String) (st : HAState)
    (res : Value) (cid err : String)
    (hsel : _select_entry_id hass.domainData req = some entry_id)
    (hed : alistGet hass.domainData entry_id = some ed)
    (hapi : ed.api = some api)
    (hent : (if optTruthy earg then earg
             else _find_last_call_sensor_entity_id hass (some entry_id)) = some eid)
    (hne : eid ≠ "")
    (hst : statesGet hass.states eid = some st)
    (hsent : st.state ∉ emptySentinels)
    (hres : api.openRelayByDoorId st.state = Except.ok res)
    (hok : respIsOkTrue res = true)
    (hcid : callIdOf (alistGetV st.attributes "CallId") = cid)
    (hcne : cid ≠ "")
    (hend : api.endCallNotify cid = Except.error err) :
    handle_open_relay_by_last_call_door_id hass req earg =
      (Except.ok { status := "ok",
                   door_id := some st.state,
                   door_name := some (doorNameOf st.attributes),
                   call_id := some (vStr cid),
                   end_call_result :=
                     some (Value.dict [("ok", .b false), ("error", .s "exception")]),
                   entity_id := some eid,
                   config_entry_id := some entry_id,
                   response := some res },
       [VendorCall.openDoor st.state, VendorCall.endCall cid]) := by
  rw [lastCall_vendor_ok hass req earg entry_id ed api eid st res
    hsel hed hapi hent hne hst hsent hres]
  simp only [hcid, hok, hend, hcne, ne_eq, not_false_eq_true, and_self, if_true,
    if_pos, true_and]
  simp [hcne]
/-- C7 witness: concrete run whose `end_call_notify` raises. -/
theorem c7_witness :
    handle_open_relay_by_last_call_door_id hassEndFail none
        (some "sensor.79991234567_last_call_door_id") =
      (Except.ok { status := "ok",
                   door_id := some stCall.state,
                   door_name := some (doorNameOf stCall.attributes),
                   call_id := some (vStr "123"),
                   end_call_result :=
                     some (Value.dict [("ok", .b false), ("error", .s "exception")]),
                   entity_id := some "sensor.79991234567_last_call_door_id",
                   config_entry_id := some "e1",
                   response := some okTrueResp },
       [VendorCall.openDoor stCall.state, VendorCall.endCall "123"]) :=
  c7_end_call_failure_captured hassEndFail none
    (some "sensor.79991234567_last_call_door_id") "e1" ⟨some apiEndFail⟩ apiEndFail
    "sensor.79991234567_last_call_door_id" stCall okTrueResp "123" "endboom"
    rfl rfl rfl rfl (by decide) rfl (by decide) rfl rfl (by decide) (by decide) rfl
/-- C8 counterexample: a requested empty-string entry id that is not a
configured account is answered with the first account instead of absence —
Python truthiness treats it as no request. -/
theorem c8_counterexample :
    _select_entry_id ddC8 (some "") = some "A" ∧ (alistGet ddC8 "").isSome = false := by
  constructor
  · rfl
  · rfl
/-- C8 (amended): the selector returns absent on an empty registry; a
requested non-empty id is returned exactly when configured and absent
otherwise (never substituting another account); no request — or a
requested empty string, which truthiness treats as no request — yields the
first configured account in registration order (deterministically, being a
pure function of the registry). -/
theorem c8_amended (dd : List (String × EntryData)) (req : Option String) :
    (dd = [] → _select_entry_id dd req = none)
    ∧ (∀ r, req = some r → r ≠ "" → dd ≠ [] →
        _select_entry_id dd req = if (alistGet dd r).isSome then some r else none)
    ∧ ((req = none ∨ req = some "") → dd ≠ [] →
        _select_entry_id dd req = dd.head?.map (·.1)) := by
  refine ⟨?_, ?_, ?_⟩
  · intro h
    subst h
    simp [_select_entry_id]
  · intro r hr hne hdd
    subst hr
    unfold _select_entry_id
    simp [List.isEmpty_iff, hdd, hne]
  · intro hreq hdd
    unfold _select_entry_id
    rcases hreq with h | h <;> subst h <;> simp [List.isEmpty_iff, hdd]
/-- C8 witness: selector behaviour on a concrete two-account registry. -/
theorem c8_witness :
    (_select_entry_id ddC8 (some "Z") = if (alistGet ddC8 "Z").isSome then some "Z" else none)
    ∧ (_select_entry_id ddC8 none = ddC8.head?.map (·.1)) :=
  ⟨(c8_amended ddC8 (some "Z")).2.1 "Z" rfl (by decide) (by simp [ddC8]),
   (c8_amended ddC8 none).2.2 (Or.inl rfl) (by simp [ddC8])⟩
/-- C9: whenever the resolved sensor's value is one of the sentinels
`unknown`, `unavailable`, `none`, `None` or the empty string, the
last-call handler returns exactly `status = skipped`,
`reason = no_last_call` with the raw sentinel value, and makes no vendor
call. -/
theorem c9_sentinel_skipped (hass : Hass) (req earg : Option String) (entry_id : String)
    (ed : EntryData) (api : ApiClient) (eid : String) (st : HAState)
    (hsel : _select_entry_id hass.domainData req = some entry_id)
    (hed : alistGet hass.domainData entry_id = some ed)
    (hapi : ed.api = some api)
    (hent : (if optTruthy earg then earg
             else _find_last_call_sensor_entity_id hass (some entry_id)) = some eid)
    (hne : eid ≠ "")
    (hst : statesGet hass.states eid = some st)
    (hsent : st.state ∈ emptySentinels) :
    handle_open_relay_by_last_call_door_id hass req earg =
      (Except.ok { status := "skipped", reason := some "no_last_call",
                   entity_id := some eid, state := some st.state }, []) :=
  lastCall_sentinel hass req earg entry_id ed api eid st
    hsel hed hapi hent hne hst hsent
/-- C9 witness: concrete run over a sensor holding `unknown`. -/
theorem c9_witness :
    handle_open_relay_by_last_call_door_id hassSentinel none
        (some "sensor.79991234567_last_call_door_id") =
      (Except.ok { status := "skipped", reason := some "no_last_call",
                   entity_id := some "sensor.79991234567_last_call_door_id",
                   state := some "unknown" }, []) :=
  c9_sentinel_skipped hassSentinel none (some "sensor.79991234567_last_call_door_id")
    "e1" edHappy apiHappy "sensor.79991234567_last_call_door_id" stUnknown
    rfl rfl rfl rfl (by decide) rfl (by decide)
/-- C10: sensor setup creates a PIN-code sensor for a key record iff the
record has the `id`, `doorId` and `name` fields and a truthy
`domofonPublicPin` (for a string pin: present and non-empty); other
records are skipped and produce no sensor, while the per-account last-call
sensor is always added. -/
theorem c10_pin_sensor_iff (keys : List (List (String × Value)))
    (entry : ConfigEntry) (eid : String) :
    SensorEntityModel.lastCall eid (extract_phone_digits entry)
      ∈ sensor_async_setup_entities keys entry eid
    ∧ ∀ k ∈ keys,
        ((∃ e ∈ sensor_async_setup_entities keys entry eid, e.keyData = some k) ↔
          ((alistGet k "id").isSome ∧ (alistGet k "doorId").isSome
            ∧ (alistGet k "name").isSome ∧ (alistGetV k "domofonPublicPin").truthy))
        ∧ (∀ p, alistGet k "domofonPublicPin" = some (vStr p) →
            ((alistGetV k "domofonPublicPin").truthy ↔ p ≠ "")) := by
  constructor
  · simp [sensor_async_setup_entities]
  · intro k hk
    constructor
    · constructor
      · rintro ⟨e, he, hkd⟩
        rw [sensor_async_setup_entities, List.mem_append] at he
        rcases he with he | he
        · obtain ⟨k', hk', hpk⟩ := List.mem_filterMap.mp he
          unfold pinSensorOf at hpk
          rcases h1 : alistGet k' "id" with _ | kid
          · rw [h1] at hpk
            exact absurd hpk (by simp)
          rcases h2 : alistGet k' "doorId" with _ | did
          · rw [h1, h2] at hpk
            exact absurd hpk (by simp)
          rcases h3 : alistGet k' "name" with _ | nm
          · rw [h1, h2, h3] at hpk
            exact absurd hpk (by simp)
          rw [h1, h2, h3] at hpk
          by_cases h4 : (alistGetV k' "domofonPublicPin").truthy
          · simp only [h4, if_true, Option.some.injEq] at hpk
            subst hpk
            simp only [SensorEntityModel.keyData, Option.some.injEq] at hkd
            subst hkd
            exact ⟨by simp [h1], by simp [h2], by simp [h3], h4⟩
          · simp [h4] at hpk
        · simp only [List.mem_singleton] at he
          subst he
          simp [SensorEntityModel.keyData] at hkd
      · rintro ⟨h1, h2, h3, h4⟩
        obtain ⟨kid, hkid⟩ := Option.isSome_iff_exists.mp h1
        obtain ⟨did, hdid⟩ := Option.isSome_iff_exists.mp h2
        obtain ⟨nm, hnm⟩ := Option.isSome_iff_exists.mp h3
        refine ⟨SensorEntityModel.doorCode kid did nm (alistGetV k "domofonPublicPin") k,
          ?_, rfl⟩
        rw [sensor_async_setup_entities, List.mem_append]
        left
        exact List.mem_filterMap.mpr ⟨k, hk, by
          unfold pinSensorOf
          rw [hkid, hdid, hnm]
          simp [h4]⟩
    · intro p hp
      simp [alistGetV, hp, vStr, Value.truthy, Scalar.truthy]
/-- C10 witness: the pin-less record among concrete key records produces
no PIN sensor. -/
theorem c10_witness :
    ((∃ e ∈ sensor_async_setup_entities keysC10 entryC3 "e1",
        e.keyData = some [("id", vStr "k2"), ("doorId", vStr "d2"), ("name", vStr "Back")]) ↔
      ((alistGet [("id", vStr "k2"), ("doorId", vStr "d2"), ("name", vStr "Back")] "id").isSome
        ∧ (alistGet [("id", vStr "k2"), ("doorId", vStr "d2"), ("name", vStr "Back")] "doorId").isSome
        ∧ (alistGet [("id", vStr "k2"), ("doorId", vStr "d2"), ("name", vStr "Back")] "name").isSome
        ∧ (alistGetV [("id", vStr "k2"), ("doorId", vStr "d2"), ("name", vStr "Back")] "domofonPublicPin").truthy)) :=
  ((c10_pin_sensor_iff keysC10 entryC3 "e1").2
    [("id", vStr "k2"), ("doorId", vStr "d2"), ("name", vStr "Back")]
    (by simp [keysC10])).1
